import Mathlib

/-!
Verification of the task-orchestration core of the MEL-25 agent-graph
subsystem: the orchestrator's four-stage pipeline (research, analysis,
strategy, report), the Neo4j-persisted Task/SubTask/Result/Agent data
model, the worker agents' task handlers, and the connection-retry and
registration logic.  The graph store is embedded as explicit lists of
nodes and edges; the Cypher CREATE / MERGE / MATCH-SET operations used
by the code are embedded as pure functions on that state.
-/

/-- A Python value stored in a subtask `parameters` dict or sent in a
payload field: either a string or a list of strings (the only value
shapes the orchestrator and agents put there). -/
inductive PVal where
  | s (v : String)
  | ls (v : List String)
deriving DecidableEq, Repr

/-- A serialized parameters map (Python dict with string keys), in
insertion order. -/
abbrev Params := List (String × PVal)

/-- Python `dict.get(k)`: first binding of `k`, or `None`. -/
def pget (p : Params) (k : String) : Option PVal :=
  (p.find? (fun kv => kv.1 == k)).map (fun kv => kv.2)

/-- Python `dict.get(k, d)`: first binding of `k`, or the default `d`. -/
def pgetD (p : Params) (k : String) (d : PVal) : PVal :=
  (pget p k).getD d

/-- The orchestrator's `TaskRequest` pydantic model (the create-task
endpoint input). -/
structure TaskRequest where
  task_type : String
  target_url : String
  analysis_scope : List String
  priority : String
deriving DecidableEq, Repr

/-- The generic stage request shape `TaskRequest` of the analysis,
strategy and report agents. -/
structure GenTaskRequest where
  subtask_id : String
  task_type : String
  parameters : Params
deriving DecidableEq, Repr

/-- The research agent's distinct request shape. -/
structure ResearchTaskRequest where
  task_id : String
  target_url : String
  analysis_scope : List String
  priority : String
deriving DecidableEq, Repr

/-- An `Agent` node's properties.  Every field is optional because the
codebase writes two disjoint property vocabularies: the registration
merges write `id`, `type`, `status`, `capabilities`, `current_task`,
while the research/analysis status flips write `agent_id`, `status`,
`current_task`.  No code path ever writes an `agent_type` property,
but `get_agent_status` reads one, so the field is carried (always
`none`).  `none` models an absent property (Cypher null). -/
structure AgentNode where
  id : Option String
  type : Option String
  status : Option String
  capabilities : Option (List String)
  current_task : Option String
  agent_id : Option String
  agent_type : Option String
deriving DecidableEq, Repr

/-- A `Task` node as created by `Orchestrator.create_task`. -/
structure TaskNode where
  id : String
  type : String
  status : String
  priority : String
  target_url : String
  analysis_scope : List String
deriving DecidableEq, Repr

/-- A `SubTask` node as created by `_assign_task_to_agent`. -/
structure SubTaskNode where
  id : String
  type : String
  status : String
  parameters : Params
deriving DecidableEq, Repr

/-- The strategy agent's canned recommendation lists
(`_generate_recommendations`). -/
structure Recommendations where
  marketing_recommendations : List String
  competitive_recommendations : List String
  growth_recommendations : List String
deriving DecidableEq, Repr

/-- The strategy agent's canned competitive positioning
(`_analyze_competitive_positioning`). -/
structure Positioning where
  positioning_statement : String
  key_differentiators : List String
  competitive_advantages : List String
deriving DecidableEq, Repr

/-- One phase of the strategy agent's canned implementation plan. -/
structure PhasePlan where
  timeline : String
  objectives : List String
deriving DecidableEq, Repr

/-- The strategy agent's canned implementation plan
(`_create_implementation_plan`). -/
structure ImplementationPlan where
  phase_1 : PhasePlan
  phase_2 : PhasePlan
  phase_3 : PhasePlan
deriving DecidableEq, Repr

/-- The dict built by `StrategyAgent._formulate_strategy`. -/
structure StrategyResultContent where
  strategy_type : String
  source_task : Option PVal
  recommendations : Recommendations
  competitive_positioning : Positioning
  implementation_plan : ImplementationPlan
  timestamp : String
deriving DecidableEq, Repr

/-- The dict built by `ReportAgent._generate_report`.  The
`executive_summary`, `detailed_analysis` and `latex_content` fields
are constants of the source that do not depend on any input (their
`strategy_data` argument is unused), so they are elided here.  In
`implementation_plan`, `none` models the default dict with an empty
phase list that `_extract_implementation_plan` returns when the
dependency data is missing. -/
structure ReportResultContent where
  report_type : String
  source_task : Option PVal
  recommendations : Recommendations
  implementation_plan : Option ImplementationPlan
  timestamp : String
deriving DecidableEq, Repr

/-- The parsed `content` of a `Result` node.  Only the strategy and
report agents create `Result` nodes, so only these two shapes occur;
storing then reading a content is the identity (serialization via
`json.dumps` / `json.loads` round-trips). -/
inductive Content where
  | strategyC (c : StrategyResultContent)
  | reportC (c : ReportResultContent)
deriving DecidableEq, Repr

/-- A `Result` node as created by `_store_result`. -/
structure ResultNode where
  id : String
  subtask_id : String
  content : Content
deriving DecidableEq, Repr

/-- The HTTP payload built by `Orchestrator._send_task_to_agent`: the
research stage uses a distinct wire shape, all other stages a generic
one. -/
inductive Payload where
  | research (task_id : String) (target_url analysis_scope priority : PVal)
  | generic (subtask_id task_type : String) (parameters : Params)
deriving DecidableEq, Repr

/-- An entry of the orchestrator's execution trace: a SubTask node
creation, or the return of the Dispatcher call for it (with the sent
payload and whether the HTTP call succeeded). -/
inductive Event where
  | createdSubTask (agentType subtaskId : String)
  | sentTask (agentType subtaskId : String) (payload : Payload) (ok : Bool)
deriving DecidableEq, Repr

/-- The shared graph-store state (plus the orchestrator's execution
trace in `events`, which is not stored data but records the order of
node creations and Dispatcher calls).  Edge lists hold (from-id,
to-id) pairs. -/
structure GraphState where
  agents : List AgentNode
  tasks : List TaskNode
  subtasks : List SubTaskNode
  results : List ResultNode
  containsE : List (String × String)
  assignedE : List (String × String)
  producesE : List (String × String)
  coordinatesE : List (String × String)
  events : List Event
deriving DecidableEq, Repr

/-- The empty graph store. -/
def emptyStore : GraphState := ⟨[], [], [], [], [], [], [], [], []⟩

/-- Cypher `MERGE` of an edge: created only when absent. -/
def addEdge (e : String × String) (l : List (String × String)) :
    List (String × String) :=
  if l.contains e then l else l ++ [e]

/-! ## Agent-node operations (registration and status flips) -/

/-- Does a node match the registration merge pattern (all five listed
properties equal)?  Cypher `MERGE (a:Agent {id: .., type: .., status: ..,
capabilities: .., current_task: ..})` matches on the whole property map,
not on `id` alone. -/
def matchesRegistration (aid atype status : String) (caps : List String)
    (ct : String) (a : AgentNode) : Bool :=
  a.id == some aid && a.type == some atype && a.status == some status &&
    a.capabilities == some caps && a.current_task == some ct

/-- The registration merge used by `Orchestrator._initialize_graph` and
by the strategy/report agents' `_initialize_agent`: if a node matching
the full property map exists, do nothing; otherwise create one. -/
def mergeAgentFull (aid atype status : String) (caps : List String)
    (ct : String) (g : GraphState) : GraphState :=
  if g.agents.any (matchesRegistration aid atype status caps ct) then g
  else
    { g with agents := g.agents ++
        [⟨some aid, some atype, some status, some caps, some ct, none, none⟩] }

/-- The research/analysis agents' status flip:
`MERGE (a:Agent {agent_id: $agent_id}) SET a.status = .., a.current_task = ..`.
It matches on the `agent_id` property only; if no node carries it, a
fresh node with only that property is created, then `SET` applies. -/
def mergeAgentByAgentId (aid status : String) (ct : Option String)
    (g : GraphState) : GraphState :=
  if g.agents.any (fun a => a.agent_id == some aid) then
    { g with agents := g.agents.map (fun a =>
        if a.agent_id == some aid then
          { a with status := some status, current_task := ct }
        else a) }
  else
    { g with agents := g.agents ++
        [⟨none, none, some status, none, ct, some aid, none⟩] }

/-- The strategy/report agents' `_update_agent_status`:
`MATCH (a:Agent {id: $agent_id}) SET a.status = .., a.current_task = ..`.
It matches on the `id` property (no creation); `ct = none` models the
Python `None` the success and error paths pass, which `SET`s the
property to null. -/
def setAgentStatusById (aid status : String) (ct : Option String)
    (g : GraphState) : GraphState :=
  { g with agents := g.agents.map (fun a =>
      if a.id == some aid then
        { a with status := some status, current_task := ct }
      else a) }

/-- The table in `Orchestrator._get_agent_capabilities`. -/
def getAgentCapabilities (agentType : String) : List String :=
  if agentType = "research" then
    ["web_scraping", "data_collection", "market_research"]
  else if agentType = "analysis" then
    ["data_processing", "pattern_recognition", "insights_generation"]
  else if agentType = "strategy" then
    ["strategy_formulation", "competitive_analysis", "recommendations"]
  else if agentType = "report" then
    ["report_generation", "latex_formatting", "visualization"]
  else []

/-- The four worker agent types, in the orchestrator's registry order. -/
def workerTypes : List String := ["research", "analysis", "strategy", "report"]

/-- Cypher `MATCH` both endpoints by `id` property then `MERGE` a
COORDINATES edge (created only if both nodes exist and the edge is
absent). -/
def addCoordinatesEdge (fromId toId : String) (g : GraphState) : GraphState :=
  if g.agents.any (fun a => a.id == some fromId) &&
      g.agents.any (fun a => a.id == some toId) then
    { g with coordinatesE := addEdge (fromId, toId) g.coordinatesE }
  else g

/-- Embedding of `Orchestrator._initialize_graph`: register the four worker Agent
nodes and the coordination agent (all via the full-property-map merge),
then create COORDINATES edges from the coordination agent to each
worker. -/
def initializeGraphDb (g : GraphState) : GraphState :=
  let g1 := workerTypes.foldl (fun g t =>
    mergeAgentFull (t ++ "_agent") t "available" (getAgentCapabilities t) "" g) g
  let g2 := mergeAgentFull "coordination_agent" "coordination" "available"
    ["task_distribution", "workflow_management"] "" g1
  workerTypes.foldl (fun g t =>
    addCoordinatesEdge "coordination_agent" (t ++ "_agent") g) g2

/-- A row of `Orchestrator.get_agent_status`. -/
structure AgentStatusRec where
  agent_id : String
  agent_type : String
  status : String
  current_task : String
  capabilities : List String
deriving DecidableEq, Repr

/-- Python `record[k] or default`: null and the empty string are falsy. -/
def pyOr (v : Option String) (d : String) : String :=
  match v with
  | none => d
  | some s => if s = "" then d else s

/-- One row of `get_agent_status`: it reads the `agent_id` and
`agent_type` properties (not `id` / `type`), substituting defaults for
null values. -/
def agentStatusRow (a : AgentNode) : AgentStatusRec :=
  { agent_id := pyOr a.agent_id "unknown"
    agent_type := pyOr a.agent_type "unknown"
    status := pyOr a.status "unknown"
    current_task := pyOr a.current_task ""
    capabilities := a.capabilities.getD [] }

/-- Embedding of `Orchestrator.get_agent_status`: list all Agent nodes. -/
def getAgentStatus (g : GraphState) : List AgentStatusRec :=
  g.agents.map agentStatusRow

/-! ## Orchestrator: task creation and the four-stage workflow -/

/-- The research stage's parameters dict built in `_start_workflow`
(note: the client's scope is stored under the key `scope`, and no
`priority` or `analysis_scope` key is ever set). -/
def researchParams (req : TaskRequest) : Params :=
  [("target_url", .s req.target_url), ("scope", .ls req.analysis_scope)]

/-- The parameters dict of the analysis/strategy/report stages built in
`_start_workflow`: the previous stage's subtask id under `depends_on`,
and the client's scope under `scope`. -/
def dependentParams (dep : String) (req : TaskRequest) : Params :=
  [("depends_on", .s dep), ("scope", .ls req.analysis_scope)]

/-- Embedding of `Orchestrator._send_task_to_agent`'s payload building: the
research agent gets the distinct shape with `task_id`, and defaults for
the keys `target_url`, `analysis_scope`, `priority`; every other agent
gets the generic shape. -/
def sendPayload (agentType subtaskId taskType : String) (params : Params) :
    Payload :=
  if agentType = "research" then
    .research subtaskId (pgetD params "target_url" (.s ""))
      (pgetD params "analysis_scope" (.ls []))
      (pgetD params "priority" (.s "medium"))
  else
    .generic subtaskId taskType params

/-- Embedding of `Orchestrator._assign_task_to_agent`: create the SubTask node
(status `pending`), the CONTAINS and ASSIGNED_TO edges, then send the
payload (the Dispatcher call's success is the oracle `ok`; on failure
the `requests` exception propagates, but all writes persist).  Returns
the state and whether the call succeeded. -/
def assignTaskToAgent (agentType taskId taskType : String) (params : Params)
    (sid : String) (ok : Bool) (g : GraphState) : GraphState × Bool :=
  let g1 :=
    { g with subtasks := g.subtasks ++ [SubTaskNode.mk sid taskType "pending" params],
             containsE := addEdge (taskId, sid) g.containsE,
             assignedE := addEdge (agentType ++ "_agent", sid) g.assignedE,
             events := g.events ++ [Event.createdSubTask agentType sid] }
  let g2 :=
    { g1 with events := g1.events ++
        [Event.sentTask agentType sid (sendPayload agentType sid taskType params) ok] }
  (g2, ok)

/-- Embedding of `Orchestrator._start_workflow`: the four stages in fixed order,
each awaited before the next starts; a failed Dispatcher call raises,
so no later stage runs.  `sids` are the four fresh subtask UUIDs, `ok`
the Dispatcher outcomes. -/
def startWorkflow (req : TaskRequest) (taskId : String)
    (sids : Fin 4 → String) (ok : Fin 4 → Bool) (g : GraphState) :
    GraphState × Bool :=
  let a1 := assignTaskToAgent "research" taskId "web_scraping"
    (researchParams req) (sids 0) (ok 0) g
  if a1.2 then
    let a2 := assignTaskToAgent "analysis" taskId "data_analysis"
      (dependentParams (sids 0) req) (sids 1) (ok 1) a1.1
    if a2.2 then
      let a3 := assignTaskToAgent "strategy" taskId "strategy_formulation"
        (dependentParams (sids 1) req) (sids 2) (ok 2) a2.1
      if a3.2 then
        let a4 := assignTaskToAgent "report" taskId "report_generation"
          (dependentParams (sids 2) req) (sids 3) (ok 3) a3.1
        (a4.1, a4.2)
      else (a3.1, false)
    else (a2.1, false)
  else (a1.1, false)

/-- Embedding of `Orchestrator.create_task`: create the Task node with status
`pending`, the coordination ASSIGNED_TO edge, then run the workflow.
No code path ever writes to the Task node again. -/
def createTask (req : TaskRequest) (taskId : String)
    (sids : Fin 4 → String) (ok : Fin 4 → Bool) (g : GraphState) :
    GraphState × Bool :=
  let tnode : TaskNode :=
    ⟨taskId, req.task_type, "pending", req.priority, req.target_url,
      req.analysis_scope⟩
  let g1 :=
    { g with tasks := g.tasks ++ [tnode],
             assignedE := addEdge ("coordination_agent", taskId) g.assignedE }
  startWorkflow req taskId sids ok g1

/-! ## Worker agents -/

/-- Outcome of a worker's `/task` handler: a `completed` response, or
an HTTP 500 raised via `HTTPException` (research/analysis) or returned
after the error path (strategy/report). -/
inductive StageOutcome where
  | completed
  | error
deriving DecidableEq, Repr

/-- The run of one worker handler: the graph state it leaves behind,
its HTTP outcome, and the agent-status writes it performed, in order
(each write is the `status` value together with the `current_task`
value set alongside it). -/
structure WorkerRun where
  g : GraphState
  outcome : StageOutcome
  writes : List (String × Option String)
deriving Repr

/-- The value of a `depends_on` parameter as the id string it holds
(`None` or a non-string value matches no SubTask in the Cypher
`MATCH`). -/
def asStringVal : Option PVal → Option String
  | some (PVal.s v) => some v
  | _ => none

/-- Cypher `MATCH (st:SubTask {id: $task_id})-[:PRODUCES]->(r:Result) RETURN
r.content` with `.single()`: the content of the first Result produced
by the given SubTask, if any (the strategy agent's
`_get_analysis_results` and the report agent's
`_get_strategy_results`). -/
def getProducedContent (g : GraphState) (tid : Option String) :
    Option Content :=
  match tid with
  | none => none
  | some t =>
    match g.producesE.find? (fun e => e.1 == t) with
    | some e => (g.results.find? (fun r => r.id == e.2)).map (fun r => r.content)
    | none => none

/-- Embedding of `StrategyAgent._generate_recommendations`: a canned structure that
does not depend on its `analysis_data` argument. -/
def generateRecommendations (_analysisData : Option Content) :
    Recommendations :=
  { marketing_recommendations :=
      ["Focus on exclusive positioning to differentiate from competitors",
       "Leverage deal flow as primary value proposition",
       "Develop multi-channel marketing approach",
       "Build strong community engagement through events"]
    competitive_recommendations :=
      ["Emphasize local market expertise vs global competitors",
       "Highlight investment opportunities and deal flow",
       "Position as premium, curated network"]
    growth_recommendations :=
      ["Expand to additional European markets",
       "Develop digital platform for community engagement",
       "Create tiered membership structure"] }

/-- Embedding of `StrategyAgent._analyze_competitive_positioning`: canned, ignores
its argument. -/
def analyzeCompetitivePositioning (_analysisData : Option Content) :
    Positioning :=
  { positioning_statement :=
      "Exclusive network for high-value entrepreneurs and investors focused on deal flow and investment opportunities"
    key_differentiators :=
      ["Local market expertise", "Deal flow focus", "Exclusive membership",
       "Investment opportunities"]
    competitive_advantages :=
      ["Strong local connections", "Investment-focused value proposition",
       "Exclusive community model"] }

/-- Embedding of `StrategyAgent._create_implementation_plan`: a canned constant. -/
def createImplementationPlan : ImplementationPlan :=
  { phase_1 := ⟨"3-6 months",
      ["Refine exclusive positioning", "Develop deal flow processes",
       "Enhance community engagement"]⟩
    phase_2 := ⟨"6-12 months",
      ["Expand to new markets", "Launch digital platform",
       "Scale membership base"]⟩
    phase_3 := ⟨"12-24 months",
      ["Achieve market leadership", "Develop additional revenue streams",
       "Establish global presence"]⟩ }

/-- Embedding of `StrategyAgent._formulate_strategy`: read the dependency Result (if
any) and build the strategy dict; a missing Result yields `None`
analysis data, which the canned generators accept unchanged.  `now` is
the wall-clock timestamp. -/
def formulateStrategy (g : GraphState) (params : Params) (now : String) :
    StrategyResultContent :=
  let dependsOn := pget params "depends_on"
  let analysisData := getProducedContent g (asStringVal dependsOn)
  { strategy_type := "marketing_strategy"
    source_task := dependsOn
    recommendations := generateRecommendations analysisData
    competitive_positioning := analyzeCompetitivePositioning analysisData
    implementation_plan := createImplementationPlan
    timestamp := now }

/-- Embedding of `ReportAgent._extract_recommendations`: the parsed dependency
dict's `recommendations` entry if present, else empty defaults. -/
def extractRecommendations : Option Content → Recommendations
  | some (Content.strategyC c) => c.recommendations
  | some (Content.reportC c) => c.recommendations
  | none => ⟨[], [], []⟩

/-- Embedding of `ReportAgent._extract_implementation_plan`: the parsed dependency
dict's `implementation_plan` entry if present, else the empty-phases
default (modelled by `none`). -/
def extractImplementationPlan : Option Content → Option ImplementationPlan
  | some (Content.strategyC c) => some c.implementation_plan
  | some (Content.reportC c) => c.implementation_plan
  | none => none

/-- Embedding of `ReportAgent._generate_report` (constant summary/analysis/latex
fields elided, see `ReportResultContent`). -/
def generateReport (g : GraphState) (params : Params) (now : String) :
    ReportResultContent :=
  let dependsOn := pget params "depends_on"
  let strategyData := getProducedContent g (asStringVal dependsOn)
  { report_type := "marketing_analysis_report"
    source_task := dependsOn
    recommendations := extractRecommendations strategyData
    implementation_plan := extractImplementationPlan strategyData
    timestamp := now }

/-- Embedding of `_store_result` (strategy and report agents): CREATE the Result
node, MERGE a PRODUCES edge from the SubTask to every Result carrying
this `subtask_id` (the MATCH pair is a cartesian product; edges are
only created when the SubTask node exists), then SET the SubTask's
status to `completed`. -/
def storeResult (rid sid : String) (c : Content) (g : GraphState) :
    GraphState :=
  let g1 := { g with results := g.results ++ [ResultNode.mk rid sid c] }
  let newEdges :=
    if g1.subtasks.any (fun st => st.id == sid) then
      ((g1.results.filter (fun r => r.subtask_id == sid)).map
          (fun r => (sid, r.id))).filter
        (fun e => !g1.producesE.contains e)
    else []
  let g2 := { g1 with producesE := g1.producesE ++ newEdges }
  { g2 with subtasks := g2.subtasks.map (fun st =>
      if st.id == sid then { st with status := "completed" } else st) }

/-- The research agent's `process_task`: flip its Agent node (keyed by
the `agent_id` property) to busy, do its scraping work and store the
data in the external research-storage service (no graph writes), then
flip back to available with an empty `current_task`; on an internal
exception (`exn`) the same best-effort reset runs in the `except`
branch and an HTTP 500 is raised.  No Result node is written and no
SubTask status is touched on any path. -/
def researchProcessTask (req : ResearchTaskRequest) (exn : Bool)
    (g : GraphState) : WorkerRun :=
  let g1 := mergeAgentByAgentId "research_agent" "busy" (some req.task_id) g
  let g2 := mergeAgentByAgentId "research_agent" "available" (some "") g1
  { g := g2
    outcome := if exn then StageOutcome.error else StageOutcome.completed
    writes := [("busy", some req.task_id), ("available", some "")] }

/-- The analysis agent's `process_task`: same structure as the research
agent (its analysis results go to the external research-storage
service); no Result node and no SubTask status write on any path. -/
def analysisProcessTask (req : GenTaskRequest) (exn : Bool)
    (g : GraphState) : WorkerRun :=
  let g1 := mergeAgentByAgentId "analysis_agent" "busy" (some req.subtask_id) g
  let g2 := mergeAgentByAgentId "analysis_agent" "available" (some "") g1
  { g := g2
    outcome := if exn then StageOutcome.error else StageOutcome.completed
    writes := [("busy", some req.subtask_id), ("available", some "")] }

/-- The strategy agent's `process_task`: set its Agent node (keyed by
the `id` property) busy, formulate the strategy, store the Result, and
reset to available with `current_task = None`; on an internal
exception the reset still runs and an HTTP 500 is returned.  `rid` is
the fresh Result UUID. -/
def strategyProcessTask (req : GenTaskRequest) (rid now : String)
    (exn : Bool) (g : GraphState) : WorkerRun :=
  let g1 := setAgentStatusById "strategy_agent" "busy" (some req.subtask_id) g
  if exn then
    { g := setAgentStatusById "strategy_agent" "available" none g1
      outcome := StageOutcome.error
      writes := [("busy", some req.subtask_id), ("available", none)] }
  else
    let content := Content.strategyC (formulateStrategy g1 req.parameters now)
    let g2 := storeResult rid req.subtask_id content g1
    { g := setAgentStatusById "strategy_agent" "available" none g2
      outcome := StageOutcome.completed
      writes := [("busy", some req.subtask_id), ("available", none)] }

/-- The report agent's `process_task`: same structure as the strategy
agent. -/
def reportProcessTask (req : GenTaskRequest) (rid now : String)
    (exn : Bool) (g : GraphState) : WorkerRun :=
  let g1 := setAgentStatusById "report_agent" "busy" (some req.subtask_id) g
  if exn then
    { g := setAgentStatusById "report_agent" "available" none g1
      outcome := StageOutcome.error
      writes := [("busy", some req.subtask_id), ("available", none)] }
  else
    let content := Content.reportC (generateReport g1 req.parameters now)
    let g2 := storeResult rid req.subtask_id content g1
    { g := setAgentStatusById "report_agent" "available" none g2
      outcome := StageOutcome.completed
      writes := [("busy", some req.subtask_id), ("available", none)] }

/-! ## Connection retry (`_initialize_neo4j_connection`) -/

/-- The sleeps performed by an exponential-backoff connection loop when
every attempt fails: with `n` attempts left, sleep `delay` after each
failed attempt except the last, growing the delay by 3/2 (the
research/analysis agents' `retry_delay *= 1.5`). -/
def backoffSleeps : Nat → ℚ → List ℚ
  | 0, _ => []
  | 1, _ => []
  | n + 2, delay => delay :: backoffSleeps (n + 1) (delay * (3 / 2))

/-- The sleeps performed by a constant-delay connection loop when every
attempt fails (the orchestrator's and strategy/report agents' loop
never changes `retry_delay`). -/
def constSleeps : Nat → ℚ → List ℚ
  | 0, _ => []
  | 1, _ => []
  | n + 2, delay => delay :: constSleeps (n + 1) delay

/-- The research/analysis agents' schedule: `max_retries = 10`,
`retry_delay = 2`, `retry_delay *= 1.5` after each failed sleep. -/
def agentConnectSleeps : List ℚ := backoffSleeps 10 2

/-- The orchestrator's (and strategy/report agents') schedule:
`max_retries = 30`, `retry_delay = 2`, never grown. -/
def orchConnectSleeps : List ℚ := constSleeps 30 2

/-- A connection loop with `maxRetries` attempts and per-attempt
success oracle `ok`: the index of the first successful attempt, or
`none` when the budget is exhausted (at which point the loop re-raises
the connection error). -/
def connectResult (maxRetries : Nat) (ok : Nat → Bool) : Option Nat :=
  (List.range maxRetries).find? ok

/-! ## Helper predicates and concrete fixtures -/

/-- An empty `current_task`: the property is null (the Python `None`
that strategy/report pass) or the empty string (what research/analysis
pass); `get_agent_status` renders both as `""`. -/
def ctEmpty (c : Option String) : Prop := c = none ∨ c = some ""

/-- All Result nodes owned by a given SubTask id. -/
def resultsFor (g : GraphState) (sid : String) : List ResultNode :=
  g.results.filter (fun r => r.subtask_id == sid)

/-- The spec's Result invariants: every SubTask has at most one Result,
and a Result implies its owning SubTask is completed. -/
def resultInv (g : GraphState) : Prop :=
  (∀ sid, (resultsFor g sid).length ≤ 1) ∧
  ∀ r ∈ g.results, ∀ st ∈ g.subtasks, st.id = r.subtask_id →
    st.status = "completed"

/-- A concrete client request (note the non-default priority and
non-empty scope). -/
def req0 : TaskRequest :=
  ⟨"marketing_analysis", "https://example.com", ["content"], "high"⟩

/-- Four concrete fresh subtask ids. -/
def sids0 : Fin 4 → String := fun i => ["s0", "s1", "s2", "s3"].getD i.val ""

/-- Dispatcher oracle: every stage call succeeds. -/
def okAll : Fin 4 → Bool := fun _ => true

/-- Dispatcher oracle: the research-stage call fails (timeout). -/
def okNone : Fin 4 → Bool := fun _ => false

/-! ## C9: the research-stage payload -/

/-- The research-stage Dispatcher event is always present in the trace
(the research call is the first thing the workflow does). -/
lemma sent_research_mem (req : TaskRequest) (taskId : String)
    (sids : Fin 4 → String) (ok : Fin 4 → Bool) (g : GraphState) :
    Event.sentTask "research" (sids 0)
        (sendPayload "research" (sids 0) "web_scraping" (researchParams req))
        (ok 0) ∈
      (createTask req taskId sids ok g).1.events := by
  cases h0 : ok 0 <;> cases h1 : ok 1 <;> cases h2 : ok 2 <;> cases h3 : ok 3 <;>
    simp [createTask, startWorkflow, assignTaskToAgent, h0, h1, h2, h3]

/-- C9: for every task created through the create-task endpoint, the
research-stage payload carries `analysis_scope = []` and
`priority = "medium"` regardless of the client's values, because
`_start_workflow` stores the scope under the key `scope` while the
payload builder reads the keys `analysis_scope` and `priority`, which
the research parameters never contain. -/
theorem research_payload_drops_scope_and_priority (req : TaskRequest)
    (taskId : String) (sids : Fin 4 → String) (ok : Fin 4 → Bool)
    (g : GraphState) :
    sendPayload "research" (sids 0) "web_scraping" (researchParams req) =
      Payload.research (sids 0) (PVal.s req.target_url) (PVal.ls [])
        (PVal.s "medium") ∧
    Event.sentTask "research" (sids 0)
        (Payload.research (sids 0) (PVal.s req.target_url) (PVal.ls [])
          (PVal.s "medium")) (ok 0) ∈
      (createTask req taskId sids ok g).1.events := by
  exact ⟨rfl, sent_research_mem req taskId sids ok g⟩

/-! ## C1: fixed four-stage order with depends_on chaining -/

/-- C1: when every Dispatcher call succeeds, the workflow creates and
dispatches exactly four SubTasks in the fixed order research, analysis,
strategy, report; the trace shows stage k+1's creation strictly after
stage k's Dispatcher call returned; stage k+1's parameters carry
`depends_on` equal to stage k's SubTask id, and the research stage's
parameters have no `depends_on` entry. -/
theorem workflow_fixed_stage_order (req : TaskRequest) (taskId : String)
    (sids : Fin 4 → String) (ok : Fin 4 → Bool) (g : GraphState)
    (hok : ∀ i, ok i = true) :
    (createTask req taskId sids ok g).1.subtasks = g.subtasks ++
      [⟨sids 0, "web_scraping", "pending", researchParams req⟩,
       ⟨sids 1, "data_analysis", "pending", dependentParams (sids 0) req⟩,
       ⟨sids 2, "strategy_formulation", "pending", dependentParams (sids 1) req⟩,
       ⟨sids 3, "report_generation", "pending", dependentParams (sids 2) req⟩] ∧
    (createTask req taskId sids ok g).1.events = g.events ++
      [Event.createdSubTask "research" (sids 0),
       Event.sentTask "research" (sids 0)
         (sendPayload "research" (sids 0) "web_scraping" (researchParams req))
         true,
       Event.createdSubTask "analysis" (sids 1),
       Event.sentTask "analysis" (sids 1)
         (sendPayload "analysis" (sids 1) "data_analysis"
           (dependentParams (sids 0) req)) true,
       Event.createdSubTask "strategy" (sids 2),
       Event.sentTask "strategy" (sids 2)
         (sendPayload "strategy" (sids 2) "strategy_formulation"
           (dependentParams (sids 1) req)) true,
       Event.createdSubTask "report" (sids 3),
       Event.sentTask "report" (sids 3)
         (sendPayload "report" (sids 3) "report_generation"
           (dependentParams (sids 2) req)) true] ∧
    (createTask req taskId sids ok g).2 = true ∧
    pget (researchParams req) "depends_on" = none ∧
    pget (dependentParams (sids 0) req) "depends_on" = some (PVal.s (sids 0)) ∧
    pget (dependentParams (sids 1) req) "depends_on" = some (PVal.s (sids 1)) ∧
    pget (dependentParams (sids 2) req) "depends_on" = some (PVal.s (sids 2)) := by
  have h0 := hok 0
  have h1 := hok 1
  have h2 := hok 2
  have h3 := hok 3
  refine ⟨?_, ?_, ?_, rfl, rfl, rfl, rfl⟩ <;>
    simp [createTask, startWorkflow, assignTaskToAgent, h0, h1, h2, h3]

/-- Witness for C1 at a concrete request, concrete ids and an
all-success Dispatcher oracle. -/
theorem workflow_fixed_stage_order_witness :
    (createTask req0 "t0" sids0 okAll emptyStore).2 = true :=
  (workflow_fixed_stage_order req0 "t0" sids0 okAll emptyStore
    (fun _ => rfl)).2.2.1

/-! ## C2: the Task status "state machine" -/

/-- C2 (amended): the Task node is created with status `pending` and
the coordinator never writes to it again — under every Dispatcher
outcome the Task's status is still `pending` after the workflow, so it
never becomes `running`, `completed` or `failed` (monotonicity holds
vacuously). -/
theorem task_status_never_updated (req : TaskRequest) (taskId : String)
    (sids : Fin 4 → String) (ok : Fin 4 → Bool) (g : GraphState) :
    (createTask req taskId sids ok g).1.tasks = g.tasks ++
      [⟨taskId, req.task_type, "pending", req.priority, req.target_url,
        req.analysis_scope⟩] := by
  cases h0 : ok 0 <;> cases h1 : ok 1 <;> cases h2 : ok 2 <;> cases h3 : ok 3 <;>
    simp [createTask, startWorkflow, assignTaskToAgent, h0, h1, h2, h3]

/-- C2 (counterexample): in a run where all four Dispatcher calls
succeed — in particular the report stage returns success — the Task's
status is still `pending`: it never became `running` at first dispatch
and never becomes `completed`. -/
theorem task_status_counterexample :
    (createTask req0 "t0" sids0 okAll emptyStore).2 = true ∧
    (createTask req0 "t0" sids0 okAll emptyStore).1.tasks.map
      TaskNode.status = ["pending"] ∧
    ¬((createTask req0 "t0" sids0 okAll emptyStore).1.tasks.map
      TaskNode.status = ["running"]) ∧
    ¬((createTask req0 "t0" sids0 okAll emptyStore).1.tasks.map
      TaskNode.status = ["completed"]) := by
  refine ⟨rfl, rfl, ?_, ?_⟩ <;> decide

/-! ## C3: failure handling -/

/-- C3 (amended): whenever a stage's Dispatcher call fails (timeout,
transport error or non-2xx) — at whichever of the four stages — the
workflow aborts there: the SubTasks of the stages up to and including
the failed one exist, no SubTask for any later stage is ever created,
and the exception propagates (`createTask` returns failure); but the
coordinator performs no status write: every created SubTask and the
Task itself remain `pending`; nothing is marked `failed`.  The four
conjuncts cover a failure at the research, analysis, strategy and
report stage respectively. -/
theorem dispatch_failure_aborts_without_failed_mark (req : TaskRequest)
    (taskId : String) (sids : Fin 4 → String) (ok : Fin 4 → Bool)
    (g : GraphState) :
    (ok 0 = false →
      (createTask req taskId sids ok g).1.subtasks = g.subtasks ++
        [⟨sids 0, "web_scraping", "pending", researchParams req⟩] ∧
      (createTask req taskId sids ok g).1.events = g.events ++
        [Event.createdSubTask "research" (sids 0),
         Event.sentTask "research" (sids 0)
           (sendPayload "research" (sids 0) "web_scraping"
             (researchParams req)) false] ∧
      (createTask req taskId sids ok g).2 = false ∧
      (createTask req taskId sids ok g).1.tasks = g.tasks ++
        [⟨taskId, req.task_type, "pending", req.priority, req.target_url,
          req.analysis_scope⟩]) ∧
    (ok 0 = true → ok 1 = false →
      (createTask req taskId sids ok g).1.subtasks = g.subtasks ++
        [⟨sids 0, "web_scraping", "pending", researchParams req⟩,
         ⟨sids 1, "data_analysis", "pending", dependentParams (sids 0) req⟩] ∧
      (createTask req taskId sids ok g).1.events = g.events ++
        [Event.createdSubTask "research" (sids 0),
         Event.sentTask "research" (sids 0)
           (sendPayload "research" (sids 0) "web_scraping"
             (researchParams req)) true,
         Event.createdSubTask "analysis" (sids 1),
         Event.sentTask "analysis" (sids 1)
           (sendPayload "analysis" (sids 1) "data_analysis"
             (dependentParams (sids 0) req)) false] ∧
      (createTask req taskId sids ok g).2 = false ∧
      (createTask req taskId sids ok g).1.tasks = g.tasks ++
        [⟨taskId, req.task_type, "pending", req.priority, req.target_url,
          req.analysis_scope⟩]) ∧
    (ok 0 = true → ok 1 = true → ok 2 = false →
      (createTask req taskId sids ok g).1.subtasks = g.subtasks ++
        [⟨sids 0, "web_scraping", "pending", researchParams req⟩,
         ⟨sids 1, "data_analysis", "pending", dependentParams (sids 0) req⟩,
         ⟨sids 2, "strategy_formulation", "pending",
           dependentParams (sids 1) req⟩] ∧
      (createTask req taskId sids ok g).1.events = g.events ++
        [Event.createdSubTask "research" (sids 0),
         Event.sentTask "research" (sids 0)
           (sendPayload "research" (sids 0) "web_scraping"
             (researchParams req)) true,
         Event.createdSubTask "analysis" (sids 1),
         Event.sentTask "analysis" (sids 1)
           (sendPayload "analysis" (sids 1) "data_analysis"
             (dependentParams (sids 0) req)) true,
         Event.createdSubTask "strategy" (sids 2),
         Event.sentTask "strategy" (sids 2)
           (sendPayload "strategy" (sids 2) "strategy_formulation"
             (dependentParams (sids 1) req)) false] ∧
      (createTask req taskId sids ok g).2 = false ∧
      (createTask req taskId sids ok g).1.tasks = g.tasks ++
        [⟨taskId, req.task_type, "pending", req.priority, req.target_url,
          req.analysis_scope⟩]) ∧
    (ok 0 = true → ok 1 = true → ok 2 = true → ok 3 = false →
      (createTask req taskId sids ok g).1.subtasks = g.subtasks ++
        [⟨sids 0, "web_scraping", "pending", researchParams req⟩,
         ⟨sids 1, "data_analysis", "pending", dependentParams (sids 0) req⟩,
         ⟨sids 2, "strategy_formulation", "pending",
           dependentParams (sids 1) req⟩,
         ⟨sids 3, "report_generation", "pending",
           dependentParams (sids 2) req⟩] ∧
      (createTask req taskId sids ok g).1.events = g.events ++
        [Event.createdSubTask "research" (sids 0),
         Event.sentTask "research" (sids 0)
           (sendPayload "research" (sids 0) "web_scraping"
             (researchParams req)) true,
         Event.createdSubTask "analysis" (sids 1),
         Event.sentTask "analysis" (sids 1)
           (sendPayload "analysis" (sids 1) "data_analysis"
             (dependentParams (sids 0) req)) true,
         Event.createdSubTask "strategy" (sids 2),
         Event.sentTask "strategy" (sids 2)
           (sendPayload "strategy" (sids 2) "strategy_formulation"
             (dependentParams (sids 1) req)) true,
         Event.createdSubTask "report" (sids 3),
         Event.sentTask "report" (sids 3)
           (sendPayload "report" (sids 3) "report_generation"
             (dependentParams (sids 2) req)) false] ∧
      (createTask req taskId sids ok g).2 = false ∧
      (createTask req taskId sids ok g).1.tasks = g.tasks ++
        [⟨taskId, req.task_type, "pending", req.priority, req.target_url,
          req.analysis_scope⟩]) := by
  refine ⟨fun h0 => ?_, fun h0 h1 => ?_, fun h0 h1 h2 => ?_,
    fun h0 h1 h2 h3 => ?_⟩
  · refine ⟨?_, ?_, ?_, ?_⟩ <;>
      simp [createTask, startWorkflow, assignTaskToAgent, h0]
  · refine ⟨?_, ?_, ?_, ?_⟩ <;>
      simp [createTask, startWorkflow, assignTaskToAgent, h0, h1]
  · refine ⟨?_, ?_, ?_, ?_⟩ <;>
      simp [createTask, startWorkflow, assignTaskToAgent, h0, h1, h2]
  · refine ⟨?_, ?_, ?_, ?_⟩ <;>
      simp [createTask, startWorkflow, assignTaskToAgent, h0, h1, h2, h3]

/-- Dispatcher oracle: the research call succeeds, the analysis call
fails. -/
def okFail1 : Fin 4 → Bool := fun i => i == 0

/-- Witness for C3's amended theorem: a mid-pipeline (analysis-stage)
Dispatcher failure at a concrete request aborts the workflow. -/
theorem dispatch_failure_aborts_witness :
    (createTask req0 "t0" sids0 okFail1 emptyStore).2 = false :=
  ((dispatch_failure_aborts_without_failed_mark req0 "t0" sids0 okFail1
    emptyStore).2.1 rfl rfl).2.2.1

/-- C3 (counterexample): with the research-stage call timing out,
exactly one SubTask (the research one) exists — as the claim says —
but its status is `pending`, not `failed`, and the Task's status is
`pending`, not `failed`. -/
theorem dispatch_failure_counterexample :
    (createTask req0 "t0" sids0 okNone emptyStore).1.subtasks.length = 1 ∧
    (createTask req0 "t0" sids0 okNone emptyStore).1.subtasks.map
      SubTaskNode.status = ["pending"] ∧
    ¬((createTask req0 "t0" sids0 okNone emptyStore).1.subtasks.map
      SubTaskNode.status = ["failed"]) ∧
    (createTask req0 "t0" sids0 okNone emptyStore).1.tasks.map
      TaskNode.status = ["pending"] ∧
    ¬((createTask req0 "t0" sids0 okNone emptyStore).1.tasks.map
      TaskNode.status = ["failed"]) := by
  refine ⟨rfl, rfl, ?_, rfl, ?_⟩ <;> decide

/-! ## C7: connection retry policy -/

/-- Closed form of the exponential-backoff sleep schedule. -/
lemma backoffSleeps_eq (n : Nat) (d : ℚ) :
    backoffSleeps (n + 1) d = (List.range n).map (fun k => d * (3 / 2) ^ k) := by
  induction n generalizing d with
  | zero => simp [backoffSleeps]
  | succ m ih =>
    rw [show m + 1 + 1 = m + 2 from rfl, backoffSleeps, ih,
      List.range_succ_eq_map]
    simp only [List.map_cons, List.map_map, pow_zero, mul_one]
    congr 1
    apply List.map_congr_left
    intro a _
    simp only [Function.comp_apply, pow_succ]
    ring

/-- Closed form of the constant-delay sleep schedule. -/
lemma constSleeps_eq (n : Nat) (d : ℚ) :
    constSleeps (n + 1) d = List.replicate n d := by
  induction n generalizing d with
  | zero => simp [constSleeps]
  | succ m ih =>
    rw [show m + 1 + 1 = m + 2 from rfl, constSleeps, ih, List.replicate_succ]

/-- C7 (counterexample): the orchestrator's
`_initialize_neo4j_connection` (and the strategy/report agents' copy)
does not grow its delay: the sleep after the second failed attempt is
2 seconds, not the 2 × 1.5 = 3 seconds that exponential backoff with
factor 1.5 would give. -/
theorem orch_retry_not_exponential :
    orchConnectSleeps[1]? = some (2 : ℚ) ∧
    ¬(orchConnectSleeps[1]? = some (2 * (3 / 2 : ℚ) ^ 1)) := by
  have h : orchConnectSleeps[1]? = some (2 : ℚ) := by
    rw [orchConnectSleeps, show (30 : Nat) = 29 + 1 from rfl, constSleeps_eq]
    rfl
  refine ⟨h, ?_⟩
  rw [h]
  intro hc
  have h2 : (2 : ℚ) = 2 * (3 / 2) ^ 1 := Option.some.inj hc
  norm_num at h2

/-- C7 (amended): the research/analysis agents' connection loop backs
off exponentially (initial 2 s, ×1.5 per attempt, 10 attempts), while
the orchestrator's and strategy/report agents' loop sleeps a constant
2 s with 30 attempts; in both variants the connection error is
re-raised only once every attempt in the budget has failed. -/
theorem connect_retry_schedules :
    (∀ k, k < 9 → agentConnectSleeps[k]? = some (2 * (3 / 2 : ℚ) ^ k)) ∧
    agentConnectSleeps.length = 9 ∧
    orchConnectSleeps = List.replicate 29 (2 : ℚ) ∧
    (∀ ok : Nat → Bool,
      (connectResult 10 ok = none ↔ ∀ k, k < 10 → ok k = false)) ∧
    (∀ ok : Nat → Bool,
      (connectResult 30 ok = none ↔ ∀ k, k < 30 → ok k = false)) := by
  have hA : agentConnectSleeps =
      (List.range 9).map (fun k => (2 : ℚ) * (3 / 2) ^ k) := by
    rw [agentConnectSleeps, show (10 : Nat) = 9 + 1 from rfl, backoffSleeps_eq]
  have hO : orchConnectSleeps = List.replicate 29 (2 : ℚ) := by
    rw [orchConnectSleeps, show (30 : Nat) = 29 + 1 from rfl, constSleeps_eq]
  refine ⟨?_, ?_, hO, ?_, ?_⟩
  · intro k hk
    rw [hA, List.getElem?_map, List.getElem?_range hk]
    rfl
  · rw [hA]; simp
  · intro ok
    simp [connectResult, List.find?_eq_none, List.mem_range]
  · intro ok
    simp [connectResult, List.find?_eq_none, List.mem_range]

/-- Witness for C7's amended theorem: the research/analysis sleep after
the second failed attempt is 2 × 1.5 seconds. -/
theorem connect_retry_schedules_witness :
    agentConnectSleeps[1]? = some (2 * (3 / 2 : ℚ) ^ 1) :=
  connect_retry_schedules.1 1 (by norm_num)

/-! ## C8: registration merge idempotence -/

/-- The strategy agent's `_initialize_agent` registration merge. -/
def strategyInitAgent (g : GraphState) : GraphState :=
  mergeAgentFull "strategy_agent" "strategy" "available"
    ["strategy_formulation", "competitive_analysis", "recommendations"] "" g

/-- A concrete strategy-stage request (depends_on names the analysis
SubTask id). -/
def reqS0 : GenTaskRequest :=
  ⟨"s2", "strategy_formulation",
    [("depends_on", PVal.s "s1"), ("scope", PVal.ls ["content"])]⟩

/-- C8 (counterexample): registration is not keyed by the agent id but
by the whole property map.  Register the strategy agent, let it process
one task (its status flips to `busy` and back to `available` with a
null `current_task`), then register again at the next process start:
the merge pattern (with `current_task: ''`) no longer matches the
mutated node, so a second Agent node with the same id appears. -/
theorem registration_duplicates_node :
    ((strategyInitAgent
        ((strategyProcessTask reqS0 "r0" "T0" false
          (strategyInitAgent emptyStore)).g)).agents.filter
      (fun a => a.id == some "strategy_agent")).length = 2 ∧
    ¬(((strategyInitAgent
        ((strategyProcessTask reqS0 "r0" "T0" false
          (strategyInitAgent emptyStore)).g)).agents.filter
      (fun a => a.id == some "strategy_agent")).length = 1) := by
  constructor <;> decide

/-- C8 (amended): two consecutive identical registration merges are
idempotent — the second is a no-op, so one Agent node results, never
two — but only as long as the node's properties still equal the
registration values; the merge matches the full property map and never
updates attributes. -/
theorem registration_merge_idempotent (aid atype status : String)
    (caps : List String) (ct : String) (g : GraphState) :
    mergeAgentFull aid atype status caps ct
        (mergeAgentFull aid atype status caps ct g) =
      mergeAgentFull aid atype status caps ct g := by
  by_cases h : g.agents.any (matchesRegistration aid atype status caps ct)
  · simp [mergeAgentFull, h]
  · have h2 : ((g.agents ++
        [⟨some aid, some atype, some status, some caps, some ct, none,
          none⟩] : List AgentNode).any
        (matchesRegistration aid atype status caps ct)) = true := by
      simp [matchesRegistration]
    simp [mergeAgentFull, h, h2]

/-! ## C5: busy/available discipline of the worker handlers -/

/-- C5: every worker handler, on its normal path and on its internal
exception path alike, first sets its Agent node busy with
`current_task` naming exactly the SubTask it is executing, and resets
it to available with an empty `current_task` (the empty string for
research/analysis, null for strategy/report) before returning. -/
theorem worker_status_discipline (reqR : ResearchTaskRequest)
    (reqG : GenTaskRequest) (rid now : String) (exn : Bool)
    (g : GraphState) :
    (researchProcessTask reqR exn g).writes =
      [("busy", some reqR.task_id), ("available", some "")] ∧
    (analysisProcessTask reqG exn g).writes =
      [("busy", some reqG.subtask_id), ("available", some "")] ∧
    (strategyProcessTask reqG rid now exn g).writes =
      [("busy", some reqG.subtask_id), ("available", none)] ∧
    (reportProcessTask reqG rid now exn g).writes =
      [("busy", some reqG.subtask_id), ("available", none)] ∧
    ctEmpty (some "") ∧ ctEmpty (none : Option String) := by
  cases exn <;>
    simp [researchProcessTask, analysisProcessTask, strategyProcessTask,
      reportProcessTask, ctEmpty]

/-! ## C6: missing dependency Result -/

/-- The op `setAgentStatusById` only touches the `agents` field, so dependency
lookups are unaffected by the busy flip. -/
lemma getProducedContent_setAgent (aid status : String) (ct : Option String)
    (g : GraphState) (tid : Option String) :
    getProducedContent (setAgentStatusById aid status ct g) tid =
      getProducedContent g tid := rfl

/-- The op `setAgentStatusById` leaves the results untouched. -/
lemma setAgent_results (aid status : String) (ct : Option String)
    (g : GraphState) :
    (setAgentStatusById aid status ct g).results = g.results := rfl

/-- The op `setAgentStatusById` leaves the subtasks untouched. -/
lemma setAgent_subtasks (aid status : String) (ct : Option String)
    (g : GraphState) :
    (setAgentStatusById aid status ct g).subtasks = g.subtasks := rfl

/-- The op `setAgentStatusById` leaves the PRODUCES edges untouched. -/
lemma setAgent_producesE (aid status : String) (ct : Option String)
    (g : GraphState) :
    (setAgentStatusById aid status ct g).producesE = g.producesE := rfl

/-- C6 (counterexample): the strategy stage is invoked with
`depends_on = "s1"` on a store holding no Result at all; instead of
reporting a stage input error in a failure response, it completes
successfully and stores its canned Result. -/
theorem missing_dependency_not_reported :
    (strategyProcessTask reqS0 "r0" "T0" false emptyStore).outcome =
      StageOutcome.completed ∧
    StageOutcome.completed ≠ StageOutcome.error ∧
    (strategyProcessTask reqS0 "r0" "T0" false emptyStore).g.results.length
      = 1 := by
  refine ⟨rfl, by decide, rfl⟩

/-- C6 (amended): when a stage's `depends_on` id has no Result, the
strategy and report agents do not fail: the dependency lookup returns
`None`, the canned domain work proceeds with it, and the stage returns
a success response, silently tolerating the missing Result (the report
agent substitutes empty recommendation/plan defaults). -/
theorem missing_dependency_silently_ignored (req : GenTaskRequest)
    (rid now : String) (g : GraphState) (d : String)
    (hdep : pget req.parameters "depends_on" = some (PVal.s d))
    (hmiss : getProducedContent g (some d) = none) :
    (strategyProcessTask req rid now false g).outcome =
      StageOutcome.completed ∧
    (strategyProcessTask req rid now false g).g.results = g.results ++
      [ResultNode.mk rid req.subtask_id (Content.strategyC
        { strategy_type := "marketing_strategy"
          source_task := some (PVal.s d)
          recommendations := generateRecommendations none
          competitive_positioning := analyzeCompetitivePositioning none
          implementation_plan := createImplementationPlan
          timestamp := now })] ∧
    (reportProcessTask req rid now false g).outcome =
      StageOutcome.completed ∧
    (reportProcessTask req rid now false g).g.results = g.results ++
      [ResultNode.mk rid req.subtask_id (Content.reportC
        { report_type := "marketing_analysis_report"
          source_task := some (PVal.s d)
          recommendations := ⟨[], [], []⟩
          implementation_plan := none
          timestamp := now })] := by
  refine ⟨rfl, ?_, rfl, ?_⟩ <;>
    simp [strategyProcessTask, reportProcessTask, storeResult,
      getProducedContent_setAgent, setAgent_results, setAgent_subtasks,
      setAgent_producesE, formulateStrategy, generateReport, hdep,
      asStringVal, hmiss, extractRecommendations, extractImplementationPlan]

/-- Witness for C6's amended theorem at a concrete request and the
empty store. -/
theorem missing_dependency_silently_ignored_witness :
    (strategyProcessTask reqS0 "r0" "T0" false emptyStore).outcome =
      StageOutcome.completed :=
  (missing_dependency_silently_ignored reqS0 "r0" "T0" emptyStore "s1"
    rfl rfl).1

/-! ## C4: Result-writing discipline of the workers -/

/-- The op `mergeAgentByAgentId` leaves the results untouched. -/
lemma mergeByAgentId_results (aid status : String) (ct : Option String)
    (g : GraphState) :
    (mergeAgentByAgentId aid status ct g).results = g.results := by
  rw [mergeAgentByAgentId]; split <;> rfl

/-- The op `mergeAgentByAgentId` leaves the subtasks untouched. -/
lemma mergeByAgentId_subtasks (aid status : String) (ct : Option String)
    (g : GraphState) :
    (mergeAgentByAgentId aid status ct g).subtasks = g.subtasks := by
  rw [mergeAgentByAgentId]; split <;> rfl

/-- The op `mergeAgentByAgentId` leaves the PRODUCES edges untouched. -/
lemma mergeByAgentId_producesE (aid status : String) (ct : Option String)
    (g : GraphState) :
    (mergeAgentByAgentId aid status ct g).producesE = g.producesE := by
  rw [mergeAgentByAgentId]; split <;> rfl

/-- The Result invariants only read the `results` and `subtasks`
fields. -/
lemma resultInv_of_eq (g g' : GraphState) (hres : g'.results = g.results)
    (hsub : g'.subtasks = g.subtasks) (h : resultInv g) : resultInv g' := by
  constructor
  · intro sid
    have h1 := h.1 sid
    simpa [resultsFor, hres] using h1
  · intro r hr st hst hid
    rw [hres] at hr
    rw [hsub] at hst
    exact h.2 r hr st hst hid

/-- Embedding fact: `_store_result` on a SubTask that exists and has no Result yet:
exactly one Result for it afterwards, a PRODUCES edge, and the SubTask
marked completed. -/
lemma storeResult_fresh (rid sid : String) (c : Content) (g : GraphState)
    (h0 : resultsFor g sid = [])
    (h1 : (sid, rid) ∉ g.producesE)
    (h2 : g.subtasks.any (fun st => st.id == sid) = true) :
    resultsFor (storeResult rid sid c g) sid = [ResultNode.mk rid sid c] ∧
    (sid, rid) ∈ (storeResult rid sid c g).producesE ∧
    ∀ st ∈ (storeResult rid sid c g).subtasks, st.id = sid →
      st.status = "completed" := by
  have hres : (storeResult rid sid c g).results =
      g.results ++ [ResultNode.mk rid sid c] := rfl
  have hfil : resultsFor g sid = [] := h0
  refine ⟨?_, ?_, ?_⟩
  · rw [resultsFor, hres, List.filter_append]
    rw [resultsFor] at hfil
    rw [hfil]
    simp
  · show (sid, rid) ∈ (storeResult rid sid c g).producesE
    rw [storeResult]
    simp only [hres]
    rw [resultsFor] at hfil
    simp [h2, List.filter_append, hfil, h1]
  · intro st hst hid
    have hsub : (storeResult rid sid c g).subtasks =
        g.subtasks.map (fun st =>
          if st.id == sid then { st with status := "completed" } else st) :=
      rfl
    rw [hsub] at hst
    obtain ⟨st0, _, rfl⟩ := List.mem_map.1 hst
    by_cases hb : st0.id == sid
    · simp [hb]
    · simp only [hb, if_neg, Bool.false_eq_true, not_false_eq_true,
        if_false] at hid ⊢
      exact absurd hid (by simpa using hb)

/-- Embedding fact: `_store_result` preserves the Result invariants when the SubTask
has no Result yet. -/
lemma resultInv_storeResult (rid sid : String) (c : Content)
    (g : GraphState) (h0 : resultsFor g sid = []) (hInv : resultInv g) :
    resultInv (storeResult rid sid c g) := by
  have hres : (storeResult rid sid c g).results =
      g.results ++ [ResultNode.mk rid sid c] := rfl
  have hsub : (storeResult rid sid c g).subtasks =
      g.subtasks.map (fun st =>
        if st.id == sid then { st with status := "completed" } else st) := rfl
  constructor
  · intro sid'
    rw [resultsFor, hres, List.filter_append]
    by_cases h : sid = sid'
    · subst h
      rw [resultsFor] at h0
      rw [h0]
      simp
    · have hne : ((ResultNode.mk rid sid c).subtask_id == sid') = false := by
        simpa using h
      have hone : List.filter (fun r => r.subtask_id == sid')
          [ResultNode.mk rid sid c] = [] := by
        simp [hne]
      rw [hone, List.append_nil]
      exact hInv.1 sid'
  · intro r hr st hst hid
    rw [hres] at hr
    rw [hsub] at hst
    obtain ⟨st0, hst0, rfl⟩ := List.mem_map.1 hst
    rcases List.mem_append.1 hr with hr | hr
    · by_cases hb : st0.id == sid
      · simp [hb]
      · simp only [hb, Bool.false_eq_true, not_false_eq_true, if_neg,
          if_false] at hid ⊢
        exact hInv.2 r hr st0 hst0 hid
    · have hrnew : r = ResultNode.mk rid sid c := by simpa using hr
      subst hrnew
      by_cases hb : st0.id == sid
      · simp [hb]
      · exfalso
        have : st0.id ≠ sid := by simpa using hb
        simp only [hb, Bool.false_eq_true, not_false_eq_true, if_neg,
          if_false] at hid
        exact this hid

/-- A store holding one pending research SubTask. -/
def g4 : GraphState :=
  { emptyStore with subtasks := [SubTaskNode.mk "s0" "web_scraping" "pending" []] }

/-- A concrete research-stage request for that SubTask (the
orchestrator sends the SubTask id in the `task_id` field). -/
def reqR0 : ResearchTaskRequest :=
  ⟨"s0", "https://example.com", ["content"], "medium"⟩

/-- C4 (counterexample): the research agent completes its SubTask —
its HTTP response says `completed` — yet writes no Result node, links
nothing, and leaves the SubTask's status `pending`. -/
theorem worker_no_result_counterexample :
    (researchProcessTask reqR0 false g4).outcome = StageOutcome.completed ∧
    resultsFor (researchProcessTask reqR0 false g4).g "s0" = [] ∧
    ¬((resultsFor (researchProcessTask reqR0 false g4).g "s0").length = 1) ∧
    (researchProcessTask reqR0 false g4).g.subtasks.map SubTaskNode.status =
      ["pending"] ∧
    ¬((researchProcessTask reqR0 false g4).g.subtasks.map SubTaskNode.status
      = ["completed"]) := by
  refine ⟨rfl, rfl, by decide, rfl, by decide⟩

/-- A store holding one pending strategy SubTask matching `reqS0`. -/
def g5 : GraphState :=
  { emptyStore with subtasks :=
      [SubTaskNode.mk "s2" "strategy_formulation" "pending"
        [("depends_on", PVal.s "s1"), ("scope", PVal.ls ["content"])]] }

/-- C4 (amended): the Result invariants hold, but only the strategy
and report agents observe the write discipline.  The research and
analysis agents leave the Result nodes, PRODUCES edges and SubTask
statuses entirely untouched on every path (and hence preserve the
invariants vacuously); the strategy and report agents, on success,
write exactly one Result for their SubTask, link it with PRODUCES and
set the SubTask `completed`, preserving the invariants. -/
theorem worker_result_discipline :
    (∀ (req : ResearchTaskRequest) (exn : Bool) (g : GraphState),
      (researchProcessTask req exn g).g.results = g.results ∧
      (researchProcessTask req exn g).g.subtasks = g.subtasks ∧
      (researchProcessTask req exn g).g.producesE = g.producesE ∧
      (resultInv g → resultInv (researchProcessTask req exn g).g)) ∧
    (∀ (req : GenTaskRequest) (exn : Bool) (g : GraphState),
      (analysisProcessTask req exn g).g.results = g.results ∧
      (analysisProcessTask req exn g).g.subtasks = g.subtasks ∧
      (analysisProcessTask req exn g).g.producesE = g.producesE ∧
      (resultInv g → resultInv (analysisProcessTask req exn g).g)) ∧
    (∀ (req : GenTaskRequest) (rid now : String) (g : GraphState),
      resultsFor g req.subtask_id = [] →
      (req.subtask_id, rid) ∉ g.producesE →
      g.subtasks.any (fun st => st.id == req.subtask_id) = true →
        resultsFor (strategyProcessTask req rid now false g).g
            req.subtask_id =
          [ResultNode.mk rid req.subtask_id (Content.strategyC
            (formulateStrategy
              (setAgentStatusById "strategy_agent" "busy"
                (some req.subtask_id) g) req.parameters now))] ∧
        (req.subtask_id, rid) ∈
          (strategyProcessTask req rid now false g).g.producesE ∧
        ∀ st ∈ (strategyProcessTask req rid now false g).g.subtasks,
          st.id = req.subtask_id → st.status = "completed") ∧
    (∀ (req : GenTaskRequest) (rid now : String) (g : GraphState),
      resultsFor g req.subtask_id = [] →
      (req.subtask_id, rid) ∉ g.producesE →
      g.subtasks.any (fun st => st.id == req.subtask_id) = true →
        resultsFor (reportProcessTask req rid now false g).g
            req.subtask_id =
          [ResultNode.mk rid req.subtask_id (Content.reportC
            (generateReport
              (setAgentStatusById "report_agent" "busy"
                (some req.subtask_id) g) req.parameters now))] ∧
        (req.subtask_id, rid) ∈
          (reportProcessTask req rid now false g).g.producesE ∧
        ∀ st ∈ (reportProcessTask req rid now false g).g.subtasks,
          st.id = req.subtask_id → st.status = "completed") ∧
    (∀ (req : GenTaskRequest) (rid now : String) (exn : Bool)
      (g : GraphState),
      resultsFor g req.subtask_id = [] → resultInv g →
      resultInv (strategyProcessTask req rid now exn g).g) ∧
    (∀ (req : GenTaskRequest) (rid now : String) (exn : Bool)
      (g : GraphState),
      resultsFor g req.subtask_id = [] → resultInv g →
      resultInv (reportProcessTask req rid now exn g).g) := by
  have frame : ∀ (aid tid : String) (exn : Bool) (g : GraphState),
      (mergeAgentByAgentId aid "available" (some "")
        (mergeAgentByAgentId aid "busy" (some tid) g)).results = g.results ∧
      (mergeAgentByAgentId aid "available" (some "")
        (mergeAgentByAgentId aid "busy" (some tid) g)).subtasks =
        g.subtasks ∧
      (mergeAgentByAgentId aid "available" (some "")
        (mergeAgentByAgentId aid "busy" (some tid) g)).producesE =
        g.producesE := by
    intro aid tid exn g
    rw [mergeByAgentId_results, mergeByAgentId_results,
      mergeByAgentId_subtasks, mergeByAgentId_subtasks,
      mergeByAgentId_producesE, mergeByAgentId_producesE]
    exact ⟨rfl, rfl, rfl⟩
  refine ⟨?_, ?_, ?_, ?_, ?_, ?_⟩
  · intro req exn g
    have hf := frame "research_agent" req.task_id exn g
    exact ⟨hf.1, hf.2.1, hf.2.2,
      fun h => resultInv_of_eq g _ hf.1 hf.2.1 h⟩
  · intro req exn g
    have hf := frame "analysis_agent" req.subtask_id exn g
    exact ⟨hf.1, hf.2.1, hf.2.2,
      fun h => resultInv_of_eq g _ hf.1 hf.2.1 h⟩
  · intro req rid now g h0 h1 h2
    have hs := storeResult_fresh rid req.subtask_id
      (Content.strategyC (formulateStrategy
        (setAgentStatusById "strategy_agent" "busy" (some req.subtask_id) g)
        req.parameters now))
      (setAgentStatusById "strategy_agent" "busy" (some req.subtask_id) g)
      h0 h1 h2
    exact hs
  · intro req rid now g h0 h1 h2
    have hs := storeResult_fresh rid req.subtask_id
      (Content.reportC (generateReport
        (setAgentStatusById "report_agent" "busy" (some req.subtask_id) g)
        req.parameters now))
      (setAgentStatusById "report_agent" "busy" (some req.subtask_id) g)
      h0 h1 h2
    exact hs
  · intro req rid now exn g h0 hInv
    cases exn
    · exact resultInv_storeResult rid req.subtask_id _ _ h0 hInv
    · exact hInv
  · intro req rid now exn g h0 hInv
    cases exn
    · exact resultInv_storeResult rid req.subtask_id _ _ h0 hInv
    · exact hInv

/-- Witness for C4's amended theorem: the strategy agent, run on a
store with a pending strategy SubTask and no Result, links exactly the
fresh Result. -/
theorem worker_result_discipline_witness :
    ("s2", "r0") ∈ (strategyProcessTask reqS0 "r0" "T0" false g5).g.producesE
    :=
  (worker_result_discipline.2.2.1 reqS0 "r0" "T0" g5 (by decide) (by decide)
    (by decide)).2.1

/-! ## C10: registered Agent nodes versus worker status flips -/

/-- C10 (counterexample): a worker status update can modify a
registered Agent node: the strategy worker's busy write (`MATCH` on the
`id` property) hits the orchestrator-registered `strategy_agent` node,
whose status is then `busy`, not `available`. -/
theorem registered_node_mutated_counterexample :
    ((setAgentStatusById "strategy_agent" "busy" (some "s2")
        (initializeGraphDb emptyStore)).agents.filter
      (fun a => a.id == some "strategy_agent")).map AgentNode.status =
      [some "busy"] ∧
    ¬(((setAgentStatusById "strategy_agent" "busy" (some "s2")
        (initializeGraphDb emptyStore)).agents.filter
      (fun a => a.id == some "strategy_agent")).map AgentNode.status =
      [some "available"]) := by
  constructor <;> decide

/-- A research/analysis-style status flip (the `MERGE` on `agent_id`),
as a data triple: agent id, status, current_task. -/
def applyFlips (L : List (String × String × Option String))
    (g : GraphState) : GraphState :=
  L.foldl (fun g f => mergeAgentByAgentId f.1 f.2.1 f.2.2 g) g

/-- Filtering commutes with a map that preserves the predicate and
fixes every element satisfying it. -/
lemma filter_map_invariant {α : Type} (p : α → Bool) (u : α → α)
    (l : List α) (h1 : ∀ a, p (u a) = p a)
    (h2 : ∀ a, p a = true → u a = a) :
    (l.map u).filter p = l.filter p := by
  induction l with
  | nil => rfl
  | cons a l ih =>
    rw [List.map_cons, List.filter_cons, List.filter_cons, h1]
    cases hpa : p a with
    | false => exact ih
    | true => rw [h2 a hpa, ih]

/-- A `MERGE` keyed on `agent_id` never changes the sublist of nodes
that have no `agent_id` property (in particular all registered
nodes). -/
lemma mergeByAgentId_filter_no_agent_id (aid status : String)
    (ct : Option String) (g : GraphState) :
    (mergeAgentByAgentId aid status ct g).agents.filter
        (fun a => a.agent_id == none) =
      g.agents.filter (fun a => a.agent_id == none) := by
  rw [mergeAgentByAgentId]
  split
  · show (g.agents.map _).filter _ = _
    apply filter_map_invariant
    · intro a
      by_cases ha : (a.agent_id == some aid) = true
      · simp only [ha, if_true]
      · simp only [Bool.not_eq_true] at ha
        simp [ha]
    · intro a hpa
      have hnone : a.agent_id = none := by simpa using hpa
      have hne : (a.agent_id == some aid) = false := by rw [hnone]; rfl
      simp [hne]
  · show (g.agents ++ [_]).filter _ = _
    rw [List.filter_append]
    simp

/-- Any sequence of research/analysis flips leaves the
no-`agent_id` sublist unchanged. -/
lemma applyFlips_filter_no_agent_id
    (L : List (String × String × Option String)) (g : GraphState) :
    (applyFlips L g).agents.filter (fun a => a.agent_id == none) =
      g.agents.filter (fun a => a.agent_id == none) := by
  induction L generalizing g with
  | nil => rfl
  | cons f L ih =>
    rw [applyFlips, List.foldl_cons]
    rw [show List.foldl (fun g f => mergeAgentByAgentId f.1 f.2.1 f.2.2 g)
        (mergeAgentByAgentId f.1 f.2.1 f.2.2 g) L =
      applyFlips L (mergeAgentByAgentId f.1 f.2.1 f.2.2 g) from rfl]
    rw [ih, mergeByAgentId_filter_no_agent_id]

/-- C10 (amended): the research and analysis workers' status flips
(`MERGE` keyed on `agent_id`) never touch the orchestrator-registered
Agent nodes, which carry no `agent_id` property: after any sequence of
such flips every registered node still has status `available` and
`current_task = ''`, and the agent-status listing — which reads the
`agent_id` and `agent_type` properties that registered nodes lack —
reports them with the substituted `unknown` defaults.  (The strategy
and report workers, by contrast, update the registered nodes via
`MATCH` on `id`; see the counterexample.) -/
theorem registered_nodes_unaffected_by_worker_flips
    (L : List (String × String × Option String)) :
    (applyFlips L (initializeGraphDb emptyStore)).agents.filter
        (fun a => a.agent_id == none) =
      (initializeGraphDb emptyStore).agents ∧
    ∀ a ∈ (applyFlips L (initializeGraphDb emptyStore)).agents,
      a.agent_id = none →
        a.status = some "available" ∧ a.current_task = some "" ∧
        (agentStatusRow a).agent_id = "unknown" ∧
        (agentStatusRow a).agent_type = "unknown" := by
  have hfil := applyFlips_filter_no_agent_id L (initializeGraphDb emptyStore)
  have hinit : (initializeGraphDb emptyStore).agents.filter
      (fun a => a.agent_id == none) = (initializeGraphDb emptyStore).agents
      := by decide
  rw [hinit] at hfil
  refine ⟨hfil, ?_⟩
  intro a ha hnone
  have hmem : a ∈ (applyFlips L (initializeGraphDb emptyStore)).agents.filter
      (fun a => a.agent_id == none) :=
    List.mem_filter.2 ⟨ha, by simp [hnone]⟩
  rw [hfil] at hmem
  have hball : ∀ a ∈ (initializeGraphDb emptyStore).agents,
      a.status = some "available" ∧ a.current_task = some "" ∧
      (agentStatusRow a).agent_id = "unknown" ∧
      (agentStatusRow a).agent_type = "unknown" := by decide
  exact hball a hmem

/-- Witness for C10's amended theorem at a concrete flip sequence (a
research busy/available cycle). -/
theorem registered_nodes_unaffected_witness :
    (applyFlips [("research_agent", "busy", some "s0"),
        ("research_agent", "available", some "")]
      (initializeGraphDb emptyStore)).agents.filter
        (fun a => a.agent_id == none) =
      (initializeGraphDb emptyStore).agents :=
  (registered_nodes_unaffected_by_worker_flips
    [("research_agent", "busy", some "s0"),
     ("research_agent", "available", some "")]).1
